import Mathlib

/-!
Verification of the complexplanet planet-map generator.

The program builds a large noise-module graph (`create_generator`), samples it
over cube faces or an equirectangular grid, and quantizes the sampled
elevations to image bytes.  Floating-point numbers are modelled as rationals.
The noise-module node types (Perlin, ridged-multifractal, billow, Voronoi,
scale/bias, clamp, curve, terrace, exponent, turbulence, combinators, cache)
live in the external noise library, not in this repository's sources; their
evaluation semantics below are modelled from the specification, with the
primitive fractal sources and the floating-point power function abstracted
into an evaluation environment.
-/

namespace ComplexPlanet

/-! ## Tunable constants (src/main.rs lines 52-133) -/

def CONTINENT_FREQUENCY : ℚ := 1.0

def CONTINENT_LACUNARITY : ℚ := 2.208984375

def MOUNTAIN_LACUNARITY : ℚ := 2.142578125

def HILLS_LACUNARITY : ℚ := 2.162109375

def PLAINS_LACUNARITY : ℚ := 2.314453125

def BADLANDS_LACUNARITY : ℚ := 2.212890625

def MOUNTAINS_TWIST : ℚ := 1.0

def HILLS_TWIST : ℚ := 1.0

def BADLANDS_TWIST : ℚ := 1.0

def SEA_LEVEL : ℚ := 0.0

def SHELF_LEVEL : ℚ := -0.375

def MOUNTAINS_AMOUNT : ℚ := 0.5

def HILLS_AMOUNT : ℚ := (1.0 + MOUNTAINS_AMOUNT) / 2.0

def BADLANDS_AMOUNT : ℚ := 0.03125

def TERRAIN_OFFSET : ℚ := 1.0

def MOUNTAIN_GLACIATION : ℚ := 1.375

def CONTINENT_HEIGHT_SCALE : ℚ := (1.0 - SEA_LEVEL) / 4.0

def RIVER_DEPTH : ℚ := 0.0234375

/-! ## Clamping helpers (src/main.rs lines 1582-1600) -/

/-- Source function `clamp<T: Ord>` (lines 1582-1590), used on integers. -/
def clamp (value lower_bound upper_bound : ℤ) : ℤ :=
  if value < lower_bound then lower_bound
  else if value > upper_bound then upper_bound
  else value

/-- Source function `f64_clamp` (lines 1592-1600). -/
def f64_clamp (value lower_bound upper_bound : ℚ) : ℚ :=
  if value < lower_bound then lower_bound
  else if value > upper_bound then upper_bound
  else value

/-- Rust `as i32` conversion of a float: truncation toward zero (the source
value is clamped beforehand, so the saturating behaviour never engages). -/
def ratTrunc (q : ℚ) : ℤ := if 0 ≤ q then ⌊q⌋ else ⌈q⌉

/-! ## Greyscale-8 quantizer (src/main.rs lines 1690-1706)

One pixel of `write_output_to_file` in the `Greyscale8` arm:
`value = (data[idx] + 1.0) / 2.0; value = (f64_clamp(value, 0.0, 1.0) * 255.0)
as i32; value = clamp(value, 0, 0xff) as u8`. -/

def greyscale8 (v : ℚ) : ℤ :=
  clamp (ratTrunc (f64_clamp ((v + 1) / 2) 0 1 * 255)) 0 0xff

/-- Quantizer the spec describes: round to nearest, then bound into [0,255]. -/
def greyscale8RoundSpec (v : ℚ) : ℤ :=
  clamp (round ((v + 1) / 2 * 255)) 0 0xff

/-! ## The noise-module graph: data model

One constructor per node type used by `create_generator`.  Node parameters are
recorded exactly as the source sets them; the internal mathematics of the
primitive sources is external to this repository. -/

inductive NoiseQuality where
  | standard
  | best
deriving DecidableEq

structure PerlinParams where
  seed : ℤ
  frequency : ℚ
  persistence : ℚ
  lacunarity : ℚ
  octave_count : ℕ
  quality : NoiseQuality

structure RidgedParams where
  seed : ℤ
  frequency : ℚ
  lacunarity : ℚ
  octave_count : ℕ
  quality : NoiseQuality

structure BillowParams where
  seed : ℤ
  frequency : ℚ
  persistence : ℚ
  lacunarity : ℚ
  octave_count : ℕ
  quality : NoiseQuality

structure VoronoiParams where
  seed : ℤ
  frequency : ℚ
  displacement : ℚ
  enable_distance : Bool

/-- A 3D query point. -/
structure P3 where
  x : ℚ
  y : ℚ
  z : ℚ

inductive Module where
  | constant (value : ℚ)
  | perlin (params : PerlinParams)
  | ridgedMulti (params : RidgedParams)
  | billow (params : BillowParams)
  | voronoi (params : VoronoiParams)
  | scaleBias (source : Module) (scale bias : ℚ)
  | clamp (source : Module) (lower upper : ℚ)
  | curve (source : Module) (points : List (ℚ × ℚ))
  | terrace (source : Module) (points : List ℚ) (invert : Bool)
  | exponent (source : Module) (exp : ℚ)
  | turbulence (source : Module) (seed : ℤ) (frequency power : ℚ) (roughness : ℕ)
  | add (source0 source1 : Module)
  | multiply (source0 source1 : Module)
  | min (source0 source1 : Module)
  | max (source0 source1 : Module)
  | blend (source0 source1 control : Module)
  | select (source0 source1 control : Module) (lower upper edge_falloff : ℚ)
  | cache (source : Module)

/-- Evaluation environment: the external collaborators.  Each primitive kind
is an arbitrary function of its parameters and the query point; `turb` gives
the per-axis perturbation noise a turbulence node derives from its seed;
`fpow` is the floating-point power function used by exponent nodes. -/
structure Env where
  perlin : PerlinParams → P3 → ℚ
  ridgedMulti : RidgedParams → P3 → ℚ
  billow : BillowParams → P3 → ℚ
  voronoi : VoronoiParams → P3 → ℚ
  turb : ℤ → ℕ → ℚ → ℕ → P3 → ℚ
  fpow : ℚ → ℚ → ℚ

/-! ## Node evaluation semantics

Modelled from the spec, section 4.1 (the node library is external to this
repository; only its composition is source code here). -/

/-- Linear interpolation between `n0` and `n1`. -/
def linearInterp (n0 n1 a : ℚ) : ℚ := n0 + a * (n1 - n0)

/-- Smooth cubic S-curve used by select edge falloff. -/
def sCurve3 (a : ℚ) : ℚ := a * a * (3 - 2 * a)

/-- Cubic interpolation through `n1` (at 0) and `n2` (at 1) with outer
neighbours `n0`, `n3`. -/
def cubicInterp (n0 n1 n2 n3 a : ℚ) : ℚ :=
  let p := (n3 - n2) - (n0 - n1)
  let q := (n0 - n1) - p
  let r := n2 - n0
  let s := n1
  ((p * a + q) * a + r) * a + s

/-- Value at `v` of the line through points `p0`, `p1`. -/
def linearSegment (p0 p1 : ℚ × ℚ) (v : ℚ) : ℚ :=
  p0.2 + (v - p0.1) * (p1.2 - p0.2) / (p1.1 - p0.1)

/-- Walk the sorted control points (`v` is at least `pa`'s input); `n0` is the
point preceding the candidate segment `[pa, pb]`, `rest` the points after
`pb`.  Inside the table the nearest four points are interpolated cubically;
past its end the boundary segment extrapolates linearly. -/
def curveEvalGo (n0 pa pb : ℚ × ℚ) (rest : List (ℚ × ℚ)) (v : ℚ) : ℚ :=
  if v < pb.1 then
    cubicInterp n0.2 pa.2 pb.2 (rest.headD pb).2 ((v - pa.1) / (pb.1 - pa.1))
  else
    match rest with
    | [] => linearSegment pa pb v
    | pc :: rest2 => curveEvalGo pa pb pc rest2 v

/-- Modelled from the spec: a curve node takes a piecewise spline through the
nearest 4 sorted control points and extrapolates linearly using the boundary
segment outside the table's range; sweeping the input through an exact
control-point coordinate yields exactly that point's output value.  A table
with fewer than the required points is a configuration error; such a table
evaluates to 0 here. -/
def curveEval (pts : List (ℚ × ℚ)) (v : ℚ) : ℚ :=
  match pts with
  | p0 :: p1 :: rest =>
    if v < p0.1 then linearSegment p0 p1 v
    else curveEvalGo p0 p0 p1 rest v
  | _ => 0

/-- Walk the sorted terrace control values; candidate step is `[va, vb]`. -/
def terraceEvalGo (invert : Bool) (va vb : ℚ) (rest : List ℚ) (v : ℚ) : ℚ :=
  if v < vb then
    let a := (v - va) / (vb - va)
    if invert then linearInterp vb va ((1 - a) * (1 - a))
    else linearInterp va vb (a * a)
  else
    match rest with
    | [] => vb
    | vc :: rest2 => terraceEvalGo invert vb vc rest2 v

/-- Modelled from the spec: a terrace node produces stair-stepped output
between sorted control values, blending adjacent steps by an inverse-square
style curve; the step bias may be inverted.  Inputs outside the table saturate
at the boundary control values. -/
def terraceEval (pts : List ℚ) (invert : Bool) (v : ℚ) : ℚ :=
  match pts with
  | [] => 0
  | [x0] => x0
  | x0 :: x1 :: rest =>
    if v < x0 then x0
    else terraceEvalGo invert x0 x1 rest v

/-- Modelled from the spec: a select node outputs `v1` when the control value
is inside [lower, upper] and `v0` outside, with a smooth cubic falloff of
width `ef` blending the two across each boundary. -/
def selectEval (v0 v1 c lower upper ef : ℚ) : ℚ :=
  if c < lower - ef then v0
  else if c < lower + ef then
    linearInterp v0 v1 (sCurve3 ((c - (lower - ef)) / ((lower + ef) - (lower - ef))))
  else if c < upper - ef then v1
  else if c < upper + ef then
    linearInterp v1 v0 (sCurve3 ((c - (upper - ef)) / ((upper + ef) - (upper - ef))))
  else v0

/-- Evaluation of a module graph at a point, relative to the environment of
external collaborators.  Cache nodes are functionally transparent. -/
def eval (env : Env) : Module → P3 → ℚ
  | .constant v, _ => v
  | .perlin pp, p => env.perlin pp p
  | .ridgedMulti rp, p => env.ridgedMulti rp p
  | .billow bp, p => env.billow bp p
  | .voronoi vp, p => env.voronoi vp p
  | .scaleBias s sc bi, p => eval env s p * sc + bi
  | .clamp s lo hi, p => f64_clamp (eval env s p) lo hi
  | .curve s pts, p => curveEval pts (eval env s p)
  | .terrace s pts inv, p => terraceEval pts inv (eval env s p)
  | .exponent s e, p => env.fpow |(eval env s p + 1) / 2| e * 2 - 1
  | .turbulence s sd f pw r, p =>
      eval env s
        ⟨p.x + pw * env.turb sd 0 f r p,
         p.y + pw * env.turb sd 1 f r p,
         p.z + pw * env.turb sd 2 f r p⟩
  | .add s0 s1, p => eval env s0 p + eval env s1 p
  | .multiply s0 s1, p => eval env s0 p * eval env s1 p
  | .min s0 s1, p => Min.min (eval env s0 p) (eval env s1 p)
  | .max s0 s1, p => Max.max (eval env s0 p) (eval env s1 p)
  | .blend s0 s1 ctl, p =>
      linearInterp (eval env s0 p) (eval env s1 p)
        (f64_clamp ((eval env ctl p + 1) / 2) 0 1)
  | .select s0 s1 ctl lo hi ef, p =>
      selectEval (eval env s0 p) (eval env s1 p) (eval env ctl p) lo hi ef
  | .cache s, p => eval env s p

/-! ## The graph built by `create_generator` (src/main.rs lines 135-1553)

One definition per node constructed in the source, in source order, with the
exact parameter values the source sets. -/

/-! Module subgroup: base continent definition (lines 153-220) -/

def base_continent_def_pe0 (seed : ℤ) : Module :=
  .perlin ⟨seed + 0, CONTINENT_FREQUENCY, 0.5, CONTINENT_LACUNARITY, 14, .standard⟩

def base_continent_def_cu (seed : ℤ) : Module :=
  .curve (base_continent_def_pe0 seed)
    [(-2.0000 + SEA_LEVEL, -1.625 + SEA_LEVEL),
     (-1.0000 + SEA_LEVEL, -1.375 + SEA_LEVEL),
     (0.0000 + SEA_LEVEL, -0.375 + SEA_LEVEL),
     (0.0625 + SEA_LEVEL, 0.125 + SEA_LEVEL),
     (0.1250 + SEA_LEVEL, 0.250 + SEA_LEVEL),
     (0.2500 + SEA_LEVEL, 1.000 + SEA_LEVEL),
     (0.5000 + SEA_LEVEL, 0.250 + SEA_LEVEL),
     (0.7500 + SEA_LEVEL, 0.250 + SEA_LEVEL),
     (1.0000 + SEA_LEVEL, 0.500 + SEA_LEVEL),
     (2.0000 + SEA_LEVEL, 0.500 + SEA_LEVEL)]

def base_continent_def_pe1 (seed : ℤ) : Module :=
  .perlin ⟨seed + 1, CONTINENT_FREQUENCY * 4.34375, 0.5, CONTINENT_LACUNARITY, 11, .standard⟩

def base_continent_def_sb (seed : ℤ) : Module :=
  .scaleBias (base_continent_def_pe1 seed) 0.375 0.625

def base_continent_def_mi (seed : ℤ) : Module :=
  .min (base_continent_def_sb seed) (base_continent_def_cu seed)

def base_continent_def_cl (seed : ℤ) : Module :=
  .clamp (base_continent_def_mi seed) (-1.0) 1.0

def base_continent_def (seed : ℤ) : Module := .cache (base_continent_def_cl seed)

/-! Module subgroup: continent definition (lines 223-284) -/

def continent_def_tu0 (seed : ℤ) : Module :=
  .turbulence (base_continent_def seed) (seed + 10) (CONTINENT_FREQUENCY * 15.25)
    (CONTINENT_FREQUENCY / 113.75) 13

def continent_def_tu1 (seed : ℤ) : Module :=
  .turbulence (continent_def_tu0 seed) (seed + 11) (CONTINENT_FREQUENCY * 47.25)
    (CONTINENT_FREQUENCY / 433.75) 12

def continent_def_tu2 (seed : ℤ) : Module :=
  .turbulence (continent_def_tu1 seed) (seed + 12) (CONTINENT_FREQUENCY * 95.25)
    (CONTINENT_FREQUENCY / 1019.75) 11

def continent_def_se (seed : ℤ) : Module :=
  .select (base_continent_def seed) (continent_def_tu2 seed) (base_continent_def seed)
    (SEA_LEVEL - 0.0375) (SEA_LEVEL + 1000.0375) 0.0625

def continent_def (seed : ℤ) : Module := .cache (continent_def_se seed)

/-! Module subgroup: terrain type definition (lines 287-331) -/

def terrain_type_def_tu (seed : ℤ) : Module :=
  .turbulence (continent_def seed) (seed + 20) (CONTINENT_FREQUENCY * 18.125)
    (CONTINENT_FREQUENCY / 20.59375 * TERRAIN_OFFSET) 3

def terrain_type_def_te (seed : ℤ) : Module :=
  .terrace (terrain_type_def_tu seed) [-1.00, SHELF_LEVEL + SEA_LEVEL / 2.0, 1.00] false

def terrain_type_def (seed : ℤ) : Module := .cache (terrain_type_def_te seed)

/-! Module subgroup: mountain base definition (lines 334-426) -/

def mountain_base_def_rm0 (seed : ℤ) : Module :=
  .ridgedMulti ⟨seed + 30, 1723.0, MOUNTAIN_LACUNARITY, 4, .standard⟩

def mountain_base_def_sb0 (seed : ℤ) : Module :=
  .scaleBias (mountain_base_def_rm0 seed) 0.5 0.375

def mountain_base_def_rm1 (seed : ℤ) : Module :=
  .ridgedMulti ⟨seed + 31, 367.0, MOUNTAIN_LACUNARITY, 1, .best⟩

def mountain_base_def_sb1 (seed : ℤ) : Module :=
  .scaleBias (mountain_base_def_rm1 seed) (-2.0) (-0.5)

def mountain_base_def_co : Module := .constant (-1.0)

def mountain_base_def_bl (seed : ℤ) : Module :=
  .blend mountain_base_def_co (mountain_base_def_sb0 seed) (mountain_base_def_sb1 seed)

def mountain_base_def_tu0 (seed : ℤ) : Module :=
  .turbulence (mountain_base_def_bl seed) (seed + 32) 1337.0
    (1.0 / 6730.0 * MOUNTAINS_TWIST) 4

def mountain_base_def_tu1 (seed : ℤ) : Module :=
  .turbulence (mountain_base_def_tu0 seed) (seed + 33) 21221.0
    (1.0 / 120157.0 * MOUNTAINS_TWIST) 6

def mountain_base_def (seed : ℤ) : Module := .cache (mountain_base_def_tu1 seed)

/-! Module subgroup: high mountainous terrain (lines 429-476) -/

def mountainous_high_rm0 (seed : ℤ) : Module :=
  .ridgedMulti ⟨seed + 40, 2371.0, MOUNTAIN_LACUNARITY, 3, .best⟩

def mountainous_high_rm1 (seed : ℤ) : Module :=
  .ridgedMulti ⟨seed + 41, 2341.0, MOUNTAIN_LACUNARITY, 3, .best⟩

def mountainous_high_ma (seed : ℤ) : Module :=
  .max (mountainous_high_rm0 seed) (mountainous_high_rm1 seed)

def mountainous_high_tu (seed : ℤ) : Module :=
  .turbulence (mountainous_high_ma seed) (seed + 42) 31511.0
    (1.0 / 180371.0 * MOUNTAINS_TWIST) 4

def mountainous_high (seed : ℤ) : Module := .cache (mountainous_high_tu seed)

/-! Module subgroup: low mountainous terrain (lines 479-523) -/

def mountainous_low_rm0 (seed : ℤ) : Module :=
  .ridgedMulti ⟨seed + 50, 1381.0, MOUNTAIN_LACUNARITY, 8, .best⟩

def mountainous_low_rm1 (seed : ℤ) : Module :=
  .ridgedMulti ⟨seed + 51, 1427.0, MOUNTAIN_LACUNARITY, 8, .best⟩

def mountainous_low_mu (seed : ℤ) : Module :=
  .multiply (mountainous_low_rm0 seed) (mountainous_low_rm1 seed)

def mountainous_low (seed : ℤ) : Module := .cache (mountainous_low_mu seed)

/-! Module subgroup: mountainous terrain (lines 526-598) -/

def mountainous_terrain_sb0 (seed : ℤ) : Module :=
  .scaleBias (mountainous_low seed) 0.03125 (-0.96875)

def mountainous_terrain_sb1 (seed : ℤ) : Module :=
  .scaleBias (mountainous_high seed) 0.25 0.25

def mountainous_terrain_ad (seed : ℤ) : Module :=
  .add (mountainous_terrain_sb1 seed) (mountain_base_def seed)

def mountainous_terrain_se (seed : ℤ) : Module :=
  .select (mountainous_terrain_sb0 seed) (mountainous_terrain_ad seed)
    (mountain_base_def seed) (-0.5) 999.5 0.5

def mountainous_terrain_sb2 (seed : ℤ) : Module :=
  .scaleBias (mountainous_terrain_se seed) 0.8 0.0

def mountainous_terrain_ex (seed : ℤ) : Module :=
  .exponent (mountainous_terrain_sb2 seed) MOUNTAIN_GLACIATION

def mountainous_terrain (seed : ℤ) : Module := .cache (mountainous_terrain_ex seed)

/-! Module subgroup: hilly terrain (lines 601-706) -/

def hilly_terrain_bi (seed : ℤ) : Module :=
  .billow ⟨seed + 60, 1663.0, 0.5, HILLS_LACUNARITY, 6, .best⟩

def hilly_terrain_sb0 (seed : ℤ) : Module :=
  .scaleBias (hilly_terrain_bi seed) 0.5 0.5

def hilly_terrain_rm (seed : ℤ) : Module :=
  .ridgedMulti ⟨seed + 61, 367.5, HILLS_LACUNARITY, 1, .best⟩

def hilly_terrain_sb1 (seed : ℤ) : Module :=
  .scaleBias (hilly_terrain_rm seed) (-2.0) (-0.5)

def hilly_terrain_co : Module := .constant (-1.0)

def hilly_terrain_bl (seed : ℤ) : Module :=
  .blend hilly_terrain_co (hilly_terrain_sb1 seed) (hilly_terrain_sb0 seed)

def hilly_terrain_sb2 (seed : ℤ) : Module :=
  .scaleBias (hilly_terrain_bl seed) 0.75 (-0.25)

def hilly_terrain_ex (seed : ℤ) : Module :=
  .exponent (hilly_terrain_sb2 seed) 1.375

def hilly_terrain_tu0 (seed : ℤ) : Module :=
  .turbulence (hilly_terrain_ex seed) (seed + 62) 1531.0 (1.0 / 16921.0 * HILLS_TWIST) 4

def hilly_terrain_tu1 (seed : ℤ) : Module :=
  .turbulence (hilly_terrain_tu0 seed) (seed + 63) 21617.0 (1.0 / 117529.0 * HILLS_TWIST) 6

def hilly_terrain (seed : ℤ) : Module := .cache (hilly_terrain_tu1 seed)

/-! Module subgroup: plains terrain (lines 709-776) -/

def plains_terrain_bi0 (seed : ℤ) : Module :=
  .billow ⟨seed + 70, 1097.5, 0.5, PLAINS_LACUNARITY, 8, .best⟩

def plains_terrain_sb0 (seed : ℤ) : Module :=
  .scaleBias (plains_terrain_bi0 seed) 0.5 0.5

def plains_terrain_bi1 (seed : ℤ) : Module :=
  .billow ⟨seed + 71, 1319.5, 0.5, PLAINS_LACUNARITY, 8, .best⟩

def plains_terrain_sb1 (seed : ℤ) : Module :=
  .scaleBias (plains_terrain_bi1 seed) 0.5 0.5

def plains_terrain_mu (seed : ℤ) : Module :=
  .multiply (plains_terrain_sb0 seed) (plains_terrain_sb1 seed)

def plains_terrain_sb2 (seed : ℤ) : Module :=
  .scaleBias (plains_terrain_mu seed) 2.0 (-1.0)

def plains_terrain (seed : ℤ) : Module := .cache (plains_terrain_sb2 seed)

/-! Module subgroup: badlands sand (lines 779-833) -/

def badlands_sand_rm (seed : ℤ) : Module :=
  .ridgedMulti ⟨seed + 80, 6163.5, BADLANDS_LACUNARITY, 1, .best⟩

def badlands_sand_sb0 (seed : ℤ) : Module :=
  .scaleBias (badlands_sand_rm seed) 0.875 0.0

def badlands_sand_vo (seed : ℤ) : Module :=
  .voronoi ⟨seed + 81, 16183.25, 0.0, true⟩

def badlands_sand_sb1 (seed : ℤ) : Module :=
  .scaleBias (badlands_sand_vo seed) 0.25 0.25

def badlands_sand_ad (seed : ℤ) : Module :=
  .add (badlands_sand_sb0 seed) (badlands_sand_sb1 seed)

def badlands_sand (seed : ℤ) : Module := .cache (badlands_sand_ad seed)

/-! Module subgroup: badlands cliffs (lines 836-907) -/

def badlands_cliffs_pe (seed : ℤ) : Module :=
  .perlin ⟨seed + 90, CONTINENT_FREQUENCY * 839.0, 0.5, BADLANDS_LACUNARITY, 6, .standard⟩

def badlands_cliffs_cu (seed : ℤ) : Module :=
  .curve (badlands_cliffs_pe seed)
    [(-2.0000, -2.0000), (-1.0000, -1.2500), (0.0000, -0.7500), (0.5000, -0.2500),
     (0.6250, 0.8750), (0.7500, 1.0000), (2.0000, 1.2500)]

def badlands_cliffs_cl (seed : ℤ) : Module :=
  .clamp (badlands_cliffs_cu seed) (-999.125) 0.875

def badlands_cliffs_te (seed : ℤ) : Module :=
  .terrace (badlands_cliffs_cl seed)
    [-1.0000, -0.8750, -0.7500, -0.5000, 0.0000, 1.0000] false

def badlands_cliffs_tu0 (seed : ℤ) : Module :=
  .turbulence (badlands_cliffs_te seed) (seed + 91) 16111.0
    (1.0 / 141539.0 * BADLANDS_TWIST) 3

def badlands_cliffs_tu1 (seed : ℤ) : Module :=
  .turbulence (badlands_cliffs_tu0 seed) (seed + 92) 36107.0
    (1.0 / 211543.0 * BADLANDS_TWIST) 3

def badlands_cliffs (seed : ℤ) : Module := .cache (badlands_cliffs_tu1 seed)

/-! Module subgroup: badlands terrain (lines 910-941) -/

def badlands_terrain_sb (seed : ℤ) : Module :=
  .scaleBias (badlands_sand seed) 0.25 (-0.75)

def badlands_terrain_ma (seed : ℤ) : Module :=
  .max (badlands_cliffs seed) (badlands_terrain_sb seed)

def badlands_terrain (seed : ℤ) : Module := .cache (badlands_terrain_ma seed)

/-! Module subgroup: river positions (lines 944-1019) -/

def river_positions_rm0 (seed : ℤ) : Module :=
  .ridgedMulti ⟨seed + 100, 18.75, CONTINENT_LACUNARITY, 1, .best⟩

def river_positions_cu0 (seed : ℤ) : Module :=
  .curve (river_positions_rm0 seed)
    [(-2.000, 2.000), (-1.000, 1.000), (-0.125, 0.875), (0.000, -1.000),
     (1.000, -1.500), (2.000, -2.000)]

def river_positions_rm1 (seed : ℤ) : Module :=
  .ridgedMulti ⟨seed + 101, 43.25, CONTINENT_LACUNARITY, 1, .best⟩

def river_positions_cu1 (seed : ℤ) : Module :=
  .curve (river_positions_rm1 seed)
    [(-2.000, 2.0000), (-1.000, 1.5000), (-0.125, 1.4375), (0.000, 0.5000),
     (1.000, 0.2500), (2.000, 0.0000)]

def river_positions_mi (seed : ℤ) : Module :=
  .min (river_positions_cu0 seed) (river_positions_cu1 seed)

def river_positions_tu (seed : ℤ) : Module :=
  .turbulence (river_positions_mi seed) (seed + 102) 9.25 (1.0 / 57.75) 6

def river_positions (seed : ℤ) : Module := .cache (river_positions_tu seed)

/-! Module subgroup: scaled mountainous terrain (lines 1022-1089) -/

def scaled_mountainous_terrain_sb0 (seed : ℤ) : Module :=
  .scaleBias (mountainous_terrain seed) 0.125 0.125

def scaled_mountainous_terrain_pe (seed : ℤ) : Module :=
  .perlin ⟨seed + 110, 14.5, 0.5, MOUNTAIN_LACUNARITY, 6, .standard⟩

def scaled_mountainous_terrain_ex (seed : ℤ) : Module :=
  .exponent (scaled_mountainous_terrain_pe seed) 1.25

def scaled_mountainous_terrain_sb1 (seed : ℤ) : Module :=
  .scaleBias (scaled_mountainous_terrain_ex seed) 0.25 1.0

def scaled_mountainous_terrain_mu (seed : ℤ) : Module :=
  .multiply (scaled_mountainous_terrain_sb0 seed) (scaled_mountainous_terrain_sb1 seed)

def scaled_mountainous_terrain (seed : ℤ) : Module :=
  .cache (scaled_mountainous_terrain_mu seed)

/-! Module subgroup: scaled hilly terrain (lines 1092-1160) -/

def scaled_hilly_terrain_sb0 (seed : ℤ) : Module :=
  .scaleBias (hilly_terrain seed) 0.0625 0.0625

def scaled_hilly_terrain_pe (seed : ℤ) : Module :=
  .perlin ⟨seed + 120, 13.5, 0.5, HILLS_LACUNARITY, 6, .standard⟩

def scaled_hilly_terrain_ex (seed : ℤ) : Module :=
  .exponent (scaled_hilly_terrain_pe seed) 1.25

def scaled_hilly_terrain_sb1 (seed : ℤ) : Module :=
  .scaleBias (scaled_hilly_terrain_ex seed) 0.5 1.5

def scaled_hilly_terrain_mu (seed : ℤ) : Module :=
  .multiply (scaled_hilly_terrain_sb0 seed) (scaled_hilly_terrain_sb1 seed)

def scaled_hilly_terrain (seed : ℤ) : Module := .cache (scaled_hilly_terrain_mu seed)

/-! Module subgroup: scaled plains terrain (lines 1163-1194) -/

def scaled_plains_terrain_sb (seed : ℤ) : Module :=
  .scaleBias (plains_terrain seed) 0.00390625 0.0078125

def scaled_plains_terrain (seed : ℤ) : Module := .cache (scaled_plains_terrain_sb seed)

/-! Module subgroup: scaled badlands terrain (lines 1197-1229) -/

def scaled_badlands_terrain_sb (seed : ℤ) : Module :=
  .scaleBias (badlands_terrain seed) 0.0625 0.0625

def scaled_badlands_terrain (seed : ℤ) : Module := .cache (scaled_badlands_terrain_sb seed)

/-! Module subgroup: continental shelf (lines 1232-1290) -/

def continental_shelf_te (seed : ℤ) : Module :=
  .terrace (continent_def seed) [-1.0, -0.75, SHELF_LEVEL, 1.0] false

def continental_shelf_rm (seed : ℤ) : Module :=
  .ridgedMulti ⟨seed + 130, CONTINENT_FREQUENCY * 4.375, CONTINENT_LACUNARITY, 16, .best⟩

def continental_shelf_sb (seed : ℤ) : Module :=
  .scaleBias (continental_shelf_rm seed) (-0.125) (-0.125)

def continental_shelf_cl (seed : ℤ) : Module :=
  .clamp (continental_shelf_te seed) (-0.75) SEA_LEVEL

def continental_shelf_ad (seed : ℤ) : Module :=
  .add (continental_shelf_sb seed) (continental_shelf_cl seed)

def continental_shelf (seed : ℤ) : Module := .cache (continental_shelf_ad seed)

/-! Module group: base continent elevations (lines 1293-1326) -/

def base_continent_elev_sb (seed : ℤ) : Module :=
  .scaleBias (continent_def seed) CONTINENT_HEIGHT_SCALE 0.0

def base_continent_elev_se (seed : ℤ) : Module :=
  .select (base_continent_elev_sb seed) (continental_shelf seed) (continent_def seed)
    (SHELF_LEVEL - 1000.0) SHELF_LEVEL 0.03125

def base_continent_elev (seed : ℤ) : Module := .cache (base_continent_elev_se seed)

/-! Module subgroup: continents with plains (lines 1329-1347) -/

def continents_with_plains_ad (seed : ℤ) : Module :=
  .add (base_continent_elev seed) (scaled_plains_terrain seed)

def continents_with_plains (seed : ℤ) : Module := .cache (continents_with_plains_ad seed)

/-! Module subgroup: continents with hills (lines 1350-1380) -/

def continents_with_hills_ad (seed : ℤ) : Module :=
  .add (base_continent_elev seed) (scaled_hilly_terrain seed)

def continents_with_hills_se (seed : ℤ) : Module :=
  .select (continents_with_plains seed) (continents_with_hills_ad seed)
    (terrain_type_def seed) (1.0 - HILLS_AMOUNT) (1001.0 - HILLS_AMOUNT) 0.25

def continents_with_hills (seed : ℤ) : Module := .cache (continents_with_hills_se seed)

/-! Module subgroup: continents with mountains (lines 1383-1435) -/

def continents_with_mountains_ad0 (seed : ℤ) : Module :=
  .add (base_continent_elev seed) (scaled_mountainous_terrain seed)

def continents_with_mountains_cu (seed : ℤ) : Module :=
  .curve (continent_def seed)
    [(-1.0, -0.0625), (0.0, 0.0000), (1.0 - MOUNTAINS_AMOUNT, 0.0625), (1.0, 0.2500)]

def continents_with_mountains_ad1 (seed : ℤ) : Module :=
  .add (continents_with_mountains_ad0 seed) (continents_with_mountains_cu seed)

def continents_with_mountains_se (seed : ℤ) : Module :=
  .select (continents_with_hills seed) (continents_with_mountains_ad1 seed)
    (terrain_type_def seed) (1.0 - MOUNTAINS_AMOUNT) (1001.0 - MOUNTAINS_AMOUNT) 0.25

def continents_with_mountains (seed : ℤ) : Module :=
  .cache (continents_with_mountains_se seed)

/-! Module subgroup: continents with badlands (lines 1438-1495) -/

def continents_with_badlands_pe (seed : ℤ) : Module :=
  .perlin ⟨seed + 140, 16.5, 0.5, CONTINENT_LACUNARITY, 2, .standard⟩

def continents_with_badlands_ad (seed : ℤ) : Module :=
  .add (base_continent_elev seed) (scaled_badlands_terrain seed)

def continents_with_badlands_se (seed : ℤ) : Module :=
  .select (continents_with_mountains seed) (continents_with_badlands_ad seed)
    (continents_with_badlands_pe seed) (1.0 - BADLANDS_AMOUNT) (1001.0 - BADLANDS_AMOUNT) 0.25

def continents_with_badlands_ma (seed : ℤ) : Module :=
  .max (continents_with_mountains seed) (continents_with_badlands_se seed)

def continents_with_badlands (seed : ℤ) : Module :=
  .cache (continents_with_badlands_ma seed)

/-! Module subgroup: continents with rivers (lines 1498-1538) -/

def continents_with_rivers_sb (seed : ℤ) : Module :=
  .scaleBias (river_positions seed) (RIVER_DEPTH / 2.0) (-RIVER_DEPTH / 2.0)

def continents_with_rivers_ad (seed : ℤ) : Module :=
  .add (continents_with_badlands seed) (continents_with_rivers_sb seed)

def continents_with_rivers_se (seed : ℤ) : Module :=
  .select (continents_with_badlands seed) (continents_with_rivers_ad seed)
    (continents_with_badlands seed) SEA_LEVEL (CONTINENT_HEIGHT_SCALE + SEA_LEVEL)
    (CONTINENT_HEIGHT_SCALE - SEA_LEVEL)

def continents_with_rivers (seed : ℤ) : Module := .cache (continents_with_rivers_se seed)

/-! Module subgroup: unscaled final planet (lines 1541-1552) -/

def unscaled_final_planet (seed : ℤ) : Module := .cache (continents_with_rivers seed)

/-- The root module returned by `create_generator` (line 1552). -/
def create_generator (seed : ℤ) : Module := unscaled_final_planet seed

/-! ## Seeds of the noise sources -/

/-- Root-node seed of a module (0 for node types that carry no seed). -/
def topSeed : Module → ℤ
  | .perlin pp => pp.seed
  | .ridgedMulti rp => rp.seed
  | .billow bp => bp.seed
  | .voronoi vp => vp.seed
  | .turbulence _ sd _ _ _ => sd
  | _ => 0

/-- The seeds of the 33 seeded noise sources `create_generator` constructs
(each corresponds to one `set_seed` call in the source), in source order. -/
def construction_seeds (seed : ℤ) : List ℤ :=
  [topSeed (base_continent_def_pe0 seed),
   topSeed (base_continent_def_pe1 seed),
   topSeed (continent_def_tu0 seed),
   topSeed (continent_def_tu1 seed),
   topSeed (continent_def_tu2 seed),
   topSeed (terrain_type_def_tu seed),
   topSeed (mountain_base_def_rm0 seed),
   topSeed (mountain_base_def_rm1 seed),
   topSeed (mountain_base_def_tu0 seed),
   topSeed (mountain_base_def_tu1 seed),
   topSeed (mountainous_high_rm0 seed),
   topSeed (mountainous_high_rm1 seed),
   topSeed (mountainous_high_tu seed),
   topSeed (mountainous_low_rm0 seed),
   topSeed (mountainous_low_rm1 seed),
   topSeed (hilly_terrain_bi seed),
   topSeed (hilly_terrain_rm seed),
   topSeed (hilly_terrain_tu0 seed),
   topSeed (hilly_terrain_tu1 seed),
   topSeed (plains_terrain_bi0 seed),
   topSeed (plains_terrain_bi1 seed),
   topSeed (badlands_sand_rm seed),
   topSeed (badlands_sand_vo seed),
   topSeed (badlands_cliffs_pe seed),
   topSeed (badlands_cliffs_tu0 seed),
   topSeed (badlands_cliffs_tu1 seed),
   topSeed (river_positions_rm0 seed),
   topSeed (river_positions_rm1 seed),
   topSeed (river_positions_tu seed),
   topSeed (scaled_mountainous_terrain_pe seed),
   topSeed (scaled_hilly_terrain_pe seed),
   topSeed (continental_shelf_rm seed),
   topSeed (continents_with_badlands_pe seed)]

/-- The fixed per-node seed offsets, in the same order. -/
def seed_offsets : List ℤ :=
  [0, 1, 10, 11, 12, 20, 30, 31, 32, 33, 40, 41, 42, 50, 51, 60, 61, 62, 63,
   70, 71, 80, 81, 90, 91, 92, 100, 101, 102, 110, 120, 130, 140]

/-! ## Structure of the final compositing stage -/

/-- Strip cache wrappers off the root of a module. -/
def stripCache : Module → Module
  | .cache s => stripCache s
  | m => m

def isClampNode : Module → Bool
  | .clamp _ _ _ => true
  | _ => false

def isSelectNode : Module → Bool
  | .select _ _ _ _ _ _ => true
  | _ => false

/-! ## Environment for the boundedness counterexample -/

/-- Facts about the floating-point power function that claim C1 relies on;
all of them hold of the real power function on the stated domains. -/
def PowOK (f : ℚ → ℚ → ℚ) : Prop :=
  (∀ e, f 1 e = 1) ∧
  (∀ b e, 1 ≤ b → 1 ≤ e → b ≤ f b e) ∧
  (∀ b e, 0 ≤ b → b ≤ 1 → 1 ≤ e → 0 ≤ f b e ∧ f b e ≤ 1)

/-- Nominal-range constraints on the environment: Perlin, billow, Voronoi and
turbulence-perturbation noise stay within the nominal range [-1, 1], and the
power function is well behaved.  Ridged-multifractal sources carry no bound,
since the spec notes their amplitude can exceed the nominal range as the
octave count grows. -/
def EnvNominal (env : Env) : Prop :=
  (∀ pp p, |env.perlin pp p| ≤ 1) ∧
  (∀ bp p, |env.billow bp p| ≤ 1) ∧
  (∀ vp p, |env.voronoi vp p| ≤ 1) ∧
  (∀ sd ax f r p, |env.turb sd ax f r p| ≤ 1) ∧
  PowOK env.fpow

/-- Perlin values for the boundedness counterexample, constant in the query
point and keyed by the node seed (global seed 0). -/
def cexPerlin (pp : PerlinParams) (_ : P3) : ℚ :=
  if pp.seed = 0 then 1/4
  else if pp.seed = 1 then 1
  else if pp.seed = 110 then 1
  else 0

/-- Ridged-multifractal values for the counterexample; the sources seeded
30, 40 and 41 return 3, exceeding the nominal range as the spec allows for
ridged-multifractal noise. -/
def cexRidged (rp : RidgedParams) (_ : P3) : ℚ :=
  if rp.seed = 30 then 3
  else if rp.seed = 40 then 3
  else if rp.seed = 41 then 3
  else if rp.seed = 31 then -1
  else if rp.seed = 100 then -1
  else if rp.seed = 101 then -1
  else 0

/-- The counterexample environment: every primitive is constant in space, the
perturbation noise vanishes, and the power function is the identity in the
base (consistent with `PowOK`). -/
def cexEnv : Env where
  perlin := cexPerlin
  ridgedMulti := cexRidged
  billow := fun _ _ => 0
  voronoi := fun _ _ => 0
  turb := fun _ _ _ _ _ => 0
  fpow := fun b _ => b

/-! ## Renderer buffers (src/main.rs lines 1617-1682) -/

/-- One row write: `row_start[a] = sample a` for `a` in `0..w`, where
`row_start` is the slice of the buffer beginning at flat index `start`. -/
def writeRow (buf : List ℚ) (start w : ℕ) (f : ℕ → ℚ) : List ℚ :=
  (List.range w).foldl (fun b a => b.set (start + a) (f a)) buf

/-- The buffer-filling loops of `output_cube_face` and `output_rect`: starting
from a zero buffer of `w * h` elevations, grid row `row` is written to the
buffer block starting at `(h - 1 - row) * w`, pixels in row-major order.
`sample x y` stands for `generator.get_value` at the projected and normalized
point of grid pixel `(x, y)`; the real-valued projection and field evaluation
are abstracted into this function. -/
def flipFill (w h : ℕ) (sample : ℕ → ℕ → ℚ) : List ℚ :=
  (List.range h).foldl
    (fun b row => writeRow b ((h - 1 - row) * w) w (fun a => sample a row))
    (List.replicate (w * h) 0)

/-- Elevation buffer of `output_cube_face` (lines 1624-1636): a square tile;
grid row `b` lands in buffer row `size - 1 - b`. -/
def output_cube_face_buffer (sample : ℕ → ℕ → ℚ) (size : ℕ) : List ℚ :=
  flipFill size size sample

/-- Elevation buffer of `output_rect` (lines 1669-1679): grid row `y` lands in
buffer row `height - 1 - y`. -/
def output_rect_buffer (sample : ℕ → ℕ → ℚ) (width height : ℕ) : List ℚ :=
  flipFill width height sample

/-- A concrete sample function used by the claim C6 witness. -/
def c6SampleFun (x y : ℕ) : ℚ := x + 2 * y

/-! ## Cube-face projection (src/main.rs lines 1555-1563 and 1602-1615) -/

inductive Plane where
  | XP
  | XN
  | YP
  | YN
  | ZP
  | ZN
deriving DecidableEq

/-- Source function `coord_to_pos` (lines 1602-1615): the per-face table picks
the grid coordinates, then each component maps to [-1, 1]. -/
def coord_to_pos (plane : Plane) (a b max_coord : ℕ) : P3 :=
  let xyz : ℕ × ℕ × ℕ :=
    match plane with
    | .XP => (max_coord, b, max_coord - a)
    | .XN => (0, b, a)
    | .YP => (a, max_coord, max_coord - b)
    | .YN => (a, 0, b)
    | .ZP => (a, b, max_coord)
    | .ZN => (max_coord - a, b, 0)
  ⟨-1 + (xyz.1 : ℚ) * 2 / (max_coord : ℚ),
   -1 + (xyz.2.1 : ℚ) * 2 / (max_coord : ℚ),
   -1 + (xyz.2.2 : ℚ) * 2 / (max_coord : ℚ)⟩

/-- The coordinate each face holds fixed (the per-face table of the spec). -/
def held_axis_value (plane : Plane) (p : P3) : ℚ :=
  match plane with
  | .XP | .XN => p.x
  | .YP | .YN => p.y
  | .ZP | .ZN => p.z

/-- The sign at which the held axis is fixed: +1 on the positive faces,
-1 on the negative faces. -/
def held_axis_sign (plane : Plane) : ℚ :=
  match plane with
  | .XP => 1
  | .XN => -1
  | .YP => 1
  | .YN => -1
  | .ZP => 1
  | .ZN => -1

/-! ## Rect projection grid (src/main.rs lines 1666-1675) -/

/-- Latitude of grid row `y` in `output_rect` (line 1673). -/
def cur_lat (y height : ℕ) : ℚ := -90 + ((y : ℚ) / (height : ℚ)) * 180

/-- Longitude of grid column `x` in `output_rect` (line 1675). -/
def cur_lon (x width : ℕ) : ℚ := -180 + ((x : ℚ) / (width : ℚ)) * 360

/-- Height of the rect-mode grid (line 1667): `height = width / 2`. -/
def rect_height (width : ℕ) : ℕ := width / 2

/-! ## CLI argument handling (src/main.rs lines 1764-1821) -/

/-- Accumulate decimal digits; any non-digit character fails the parse. -/
def parseDigitsAux : List Char → ℕ → Option ℕ
  | [], acc => some acc
  | c :: rest, acc =>
    if c.isDigit then parseDigitsAux rest (acc * 10 + (c.toNat - 48)) else none

/-- Parse a nonempty all-digit string. -/
def parseDigits (s : List Char) : Option ℕ :=
  match s with
  | [] => none
  | _ => parseDigitsAux s 0

/-- Modelled from the spec: `i32::from_str` of the Rust standard library (an
external collaborator) — an optional sign followed by decimal digits, within
the i32 range. -/
def parse_i32 (s : String) : Option ℤ :=
  match s.data with
  | [] => none
  | c :: rest =>
    if c = '+' then
      (parseDigits rest).bind fun n =>
        if (n : ℤ) ≤ 2 ^ 31 - 1 then some (n : ℤ) else none
    else if c = '-' then
      (parseDigits rest).bind fun n =>
        if (n : ℤ) ≤ 2 ^ 31 then some (-(n : ℤ)) else none
    else
      (parseDigits (c :: rest)).bind fun n =>
        if (n : ℤ) ≤ 2 ^ 31 - 1 then some (n : ℤ) else none

/-- Modelled from the spec: `usize::from_str` — an optional plus sign followed
by decimal digits, within the 64-bit range; a minus sign is not a digit, so an
unsigned parse rejects it. -/
def parse_usize (s : String) : Option ℕ :=
  match s.data with
  | [] => none
  | c :: rest =>
    if c = '+' then
      (parseDigits rest).bind fun n => if n ≤ 2 ^ 64 - 1 then some n else none
    else
      (parseDigits (c :: rest)).bind fun n => if n ≤ 2 ^ 64 - 1 then some n else none

/-- Outcome of `main`'s argument handling: exit with a status code and message
before any generation, or proceed to rendering with the parsed values. -/
inductive MainOutcome where
  | exit (code : ℕ) (message : String)
  | render (seed : ℤ) (width : ℕ)
deriving DecidableEq

/-- The seed and width handling of `main` (lines 1794-1808): a failed seed
parse prints the seed error and exits with status 1 before the width is even
examined; a failed width parse prints the width error and exits with status 1;
only otherwise does rendering begin. -/
def main_args (seed_arg width_arg : String) : MainOutcome :=
  match parse_i32 seed_arg with
  | none => .exit 1 "Seed must be an integer"
  | some seed =>
    match parse_usize width_arg with
    | none => .exit 1 "Width must be an integer"
    | some width => .render seed width

/-- A string denoting a strictly negative integer: a minus sign followed by at
least one decimal digit, with a nonzero digit among them. -/
def NegIntString (s : String) : Prop :=
  ∃ rest, s.data = '-' :: rest ∧ rest ≠ [] ∧
    (∀ c ∈ rest, c.isDigit = true) ∧ ∃ c ∈ rest, c ≠ '0'

end ComplexPlanet

namespace ComplexPlanet

/-! ## Theorems: clamping and quantization -/

theorem f64_clamp_mono {lo hi a b : ℚ} (hlo : lo ≤ hi) (hab : a ≤ b) :
    f64_clamp a lo hi ≤ f64_clamp b lo hi := by
  unfold f64_clamp
  split_ifs <;> linarith

theorem clamp_mono {lo hi a b : ℤ} (hlo : lo ≤ hi) (hab : a ≤ b) :
    clamp a lo hi ≤ clamp b lo hi := by
  unfold clamp
  split_ifs <;> omega

theorem ratTrunc_mono {a b : ℚ} (hab : a ≤ b) : ratTrunc a ≤ ratTrunc b := by
  unfold ratTrunc
  split_ifs with h1 h2 h2
  · exact Int.floor_le_floor hab
  · linarith
  · calc ⌈a⌉ ≤ 0 := Int.ceil_le.mpr (by push_neg at h1; exact_mod_cast le_of_lt h1)
      _ ≤ ⌊b⌋ := Int.floor_nonneg.mpr h2
  · exact Int.ceil_le_ceil hab

/-! ## Claim C2 -/

/-- Claim C2 (code bug): the source constants set `MOUNTAINS_AMOUNT = 0.5` and
`HILLS_AMOUNT = (1.0 + MOUNTAINS_AMOUNT) / 2.0 = 0.75`, so the documented
requirement `HILLS_AMOUNT < MOUNTAINS_AMOUNT` is violated by the shipped
values, while `SHELF_LEVEL < SEA_LEVEL` and `MOUNTAINS_AMOUNT ≤ 1` do hold.
No startup validation of these relations exists in `main`. -/
theorem c2_constants_violate_documented_relation :
    SHELF_LEVEL < SEA_LEVEL ∧ MOUNTAINS_AMOUNT ≤ 1 ∧
    MOUNTAINS_AMOUNT = 1/2 ∧ HILLS_AMOUNT = 3/4 ∧
    ¬ HILLS_AMOUNT < MOUNTAINS_AMOUNT := by
  refine ⟨?_, ?_, ?_, ?_, ?_⟩ <;>
    norm_num [SHELF_LEVEL, SEA_LEVEL, HILLS_AMOUNT, MOUNTAINS_AMOUNT]

/-! ## Claim C3 -/

theorem f64_clamp_eq_self {v lo hi : ℚ} (h1 : lo ≤ v) (h2 : v ≤ hi) :
    f64_clamp v lo hi = v := by
  unfold f64_clamp
  rw [if_neg (not_lt.mpr h1), if_neg (not_lt.mpr h2)]

theorem greyscale8_eq_floor (v : ℚ) (h1 : -1 ≤ v) (h2 : v ≤ 1) :
    greyscale8 v = clamp ⌊(v + 1) / 2 * 255⌋ 0 255 := by
  have h0 : (0:ℚ) ≤ (v + 1) / 2 := by linarith
  have hub : (v + 1) / 2 ≤ 1 := by linarith
  unfold greyscale8 ratTrunc
  rw [f64_clamp_eq_self h0 hub, if_pos (by positivity)]

/-- Claim C3 counterexample: at elevation v = 999/1000 the code truncates the
scaled value 254.8725 down to byte 254, while the round-to-nearest formula in
the spec yields byte 255. -/
theorem c3_trunc_vs_round_counterexample :
    greyscale8 (999/1000) = 254 ∧ greyscale8RoundSpec (999/1000) = 255 ∧
    ¬ greyscale8 (999/1000) = greyscale8RoundSpec (999/1000) := by
  have h1 : greyscale8 (999/1000) = 254 := by
    rw [greyscale8_eq_floor (999/1000) (by norm_num) (by norm_num),
      show ⌊((999:ℚ)/1000 + 1) / 2 * 255⌋ = 254 by norm_num]
    decide
  have h2 : greyscale8RoundSpec (999/1000) = 255 := by
    unfold greyscale8RoundSpec
    rw [show round (((999:ℚ)/1000 + 1) / 2 * 255) = 255 by norm_num [round_eq]]
    decide
  exact ⟨h1, h2, by omega⟩

/-- Claim C3 amended: the greyscale-8 quantizer scales the elevation and then
truncates toward zero (equivalently, takes the floor of the nonnegative scaled
value) before bounding into [0, 255]; it does not round to nearest. -/
theorem c3_greyscale8_is_floor (v : ℚ) (h1 : -1 ≤ v) (h2 : v ≤ 1) :
    greyscale8 v = clamp ⌊(v + 1) / 2 * 255⌋ 0 255 :=
  greyscale8_eq_floor v h1 h2

/-- Witness for the amended C3 theorem at v = 1/2. -/
theorem c3_greyscale8_is_floor_witness :
    greyscale8 (1/2) = clamp ⌊((1:ℚ)/2 + 1) / 2 * 255⌋ 0 255 :=
  c3_greyscale8_is_floor (1/2) (by norm_num) (by norm_num)

/-! ## Claim C4 -/

/-- Claim C4: the greyscale-8 quantizer maps elevation -1 to byte 0 and
elevation +1 to byte 255, and is monotone non-decreasing in the elevation. -/
theorem c4_greyscale8_endpoints_and_mono :
    greyscale8 (-1) = 0 ∧ greyscale8 1 = 255 ∧
    ∀ v1 v2 : ℚ, v1 ≤ v2 → greyscale8 v1 ≤ greyscale8 v2 := by
  refine ⟨?_, ?_, ?_⟩
  · rw [greyscale8_eq_floor (-1) (le_refl _) (by norm_num),
      show ⌊((-1:ℚ) + 1) / 2 * 255⌋ = 0 by norm_num]
    decide
  · rw [greyscale8_eq_floor 1 (by norm_num) (le_refl _),
      show ⌊((1:ℚ) + 1) / 2 * 255⌋ = 255 by norm_num]
    decide
  · intro v1 v2 h
    unfold greyscale8
    apply clamp_mono (by norm_num)
    apply ratTrunc_mono
    have hc := @f64_clamp_mono 0 1 ((v1 + 1) / 2) ((v2 + 1) / 2) (by norm_num)
      (by linarith)
    nlinarith [hc]

/-- Witness for C4: monotonicity applied at the concrete pair (-1/2, 1/2). -/
theorem c4_greyscale8_endpoints_and_mono_witness :
    greyscale8 (-1/2) ≤ greyscale8 (1/2) :=
  c4_greyscale8_endpoints_and_mono.2.2 (-1/2) (1/2) (by norm_num)

/-! ## Claim C5 -/

/-- Claim C5: every noise source's seed is the global seed plus a fixed
constant offset, and the 33 offsets are pairwise distinct, so no two sources
of one graph ever share a seed, whatever the global seed. -/
theorem c5_all_source_seeds_distinct (seed : ℤ) :
    construction_seeds seed = seed_offsets.map (fun off => seed + off) ∧
    (construction_seeds seed).Nodup := by
  have h : construction_seeds seed = seed_offsets.map (fun off => seed + off) := by
    simp [construction_seeds, seed_offsets, topSeed, base_continent_def_pe0,
      base_continent_def_pe1, continent_def_tu0, continent_def_tu1,
      continent_def_tu2, terrain_type_def_tu, mountain_base_def_rm0,
      mountain_base_def_rm1, mountain_base_def_tu0, mountain_base_def_tu1,
      mountainous_high_rm0, mountainous_high_rm1, mountainous_high_tu,
      mountainous_low_rm0, mountainous_low_rm1, hilly_terrain_bi,
      hilly_terrain_rm, hilly_terrain_tu0, hilly_terrain_tu1,
      plains_terrain_bi0, plains_terrain_bi1, badlands_sand_rm,
      badlands_sand_vo, badlands_cliffs_pe, badlands_cliffs_tu0,
      badlands_cliffs_tu1, river_positions_rm0, river_positions_rm1,
      river_positions_tu, scaled_mountainous_terrain_pe,
      scaled_hilly_terrain_pe, continental_shelf_rm, continents_with_badlands_pe]
  refine ⟨h, ?_⟩
  rw [h]
  refine List.Nodup.map (fun a b hab => by omega) ?_
  decide

/-! ## Unfolding equations for `eval`, one per node type -/

@[simp] theorem eval_constant (env : Env) (v : ℚ) (p : P3) :
    eval env (.constant v) p = v := rfl

@[simp] theorem eval_perlin (env : Env) (pp : PerlinParams) (p : P3) :
    eval env (.perlin pp) p = env.perlin pp p := rfl

@[simp] theorem eval_ridgedMulti (env : Env) (rp : RidgedParams) (p : P3) :
    eval env (.ridgedMulti rp) p = env.ridgedMulti rp p := rfl

@[simp] theorem eval_billow (env : Env) (bp : BillowParams) (p : P3) :
    eval env (.billow bp) p = env.billow bp p := rfl

@[simp] theorem eval_voronoi (env : Env) (vp : VoronoiParams) (p : P3) :
    eval env (.voronoi vp) p = env.voronoi vp p := rfl

@[simp] theorem eval_scaleBias (env : Env) (s : Module) (sc bi : ℚ) (p : P3) :
    eval env (.scaleBias s sc bi) p = eval env s p * sc + bi := rfl

@[simp] theorem eval_clampNode (env : Env) (s : Module) (lo hi : ℚ) (p : P3) :
    eval env (.clamp s lo hi) p = f64_clamp (eval env s p) lo hi := rfl

@[simp] theorem eval_curveNode (env : Env) (s : Module) (pts : List (ℚ × ℚ)) (p : P3) :
    eval env (.curve s pts) p = curveEval pts (eval env s p) := rfl

@[simp] theorem eval_terraceNode (env : Env) (s : Module) (pts : List ℚ) (inv : Bool) (p : P3) :
    eval env (.terrace s pts inv) p = terraceEval pts inv (eval env s p) := rfl

@[simp] theorem eval_exponentNode (env : Env) (s : Module) (e : ℚ) (p : P3) :
    eval env (.exponent s e) p = env.fpow |(eval env s p + 1) / 2| e * 2 - 1 := rfl

@[simp] theorem eval_turbulenceNode (env : Env) (s : Module) (sd : ℤ) (f pw : ℚ)
    (r : ℕ) (p : P3) :
    eval env (.turbulence s sd f pw r) p =
      eval env s
        ⟨p.x + pw * env.turb sd 0 f r p,
         p.y + pw * env.turb sd 1 f r p,
         p.z + pw * env.turb sd 2 f r p⟩ := rfl

@[simp] theorem eval_addNode (env : Env) (s0 s1 : Module) (p : P3) :
    eval env (.add s0 s1) p = eval env s0 p + eval env s1 p := rfl

@[simp] theorem eval_multiplyNode (env : Env) (s0 s1 : Module) (p : P3) :
    eval env (.multiply s0 s1) p = eval env s0 p * eval env s1 p := rfl

@[simp] theorem eval_minNode (env : Env) (s0 s1 : Module) (p : P3) :
    eval env (.min s0 s1) p = Min.min (eval env s0 p) (eval env s1 p) := rfl

@[simp] theorem eval_maxNode (env : Env) (s0 s1 : Module) (p : P3) :
    eval env (.max s0 s1) p = Max.max (eval env s0 p) (eval env s1 p) := rfl

@[simp] theorem eval_blendNode (env : Env) (s0 s1 ctl : Module) (p : P3) :
    eval env (.blend s0 s1 ctl) p =
      linearInterp (eval env s0 p) (eval env s1 p)
        (f64_clamp ((eval env ctl p + 1) / 2) 0 1) := rfl

@[simp] theorem eval_selectNode (env : Env) (s0 s1 ctl : Module) (lo hi ef : ℚ) (p : P3) :
    eval env (.select s0 s1 ctl lo hi ef) p =
      selectEval (eval env s0 p) (eval env s1 p) (eval env ctl p) lo hi ef := rfl

@[simp] theorem eval_cacheNode (env : Env) (s : Module) (p : P3) :
    eval env (.cache s) p = eval env s p := rfl

/-! ## Projections of the counterexample environment -/

@[simp] theorem cexEnv_perlin (pp : PerlinParams) (p : P3) :
    cexEnv.perlin pp p = cexPerlin pp p := rfl

@[simp] theorem cexEnv_ridgedMulti (rp : RidgedParams) (p : P3) :
    cexEnv.ridgedMulti rp p = cexRidged rp p := rfl

@[simp] theorem cexEnv_billow (bp : BillowParams) (p : P3) :
    cexEnv.billow bp p = 0 := rfl

@[simp] theorem cexEnv_voronoi (vp : VoronoiParams) (p : P3) :
    cexEnv.voronoi vp p = 0 := rfl

@[simp] theorem cexEnv_turb (sd : ℤ) (ax : ℕ) (f : ℚ) (r : ℕ) (p : P3) :
    cexEnv.turb sd ax f r p = 0 := rfl

@[simp] theorem cexEnv_fpow (b e : ℚ) : cexEnv.fpow b e = b := rfl

/-! ## Claim C1: evaluation of the graph under the counterexample environment

Each lemma gives the value of one cached subgroup under `cexEnv`; the
environment is constant in the query point, so each value holds at every
point, which lets the turbulence-warped query points be discharged. -/

theorem cex_base_continent_def (p : P3) :
    eval cexEnv (base_continent_def 0) p = 1 := by
  norm_num [base_continent_def, base_continent_def_cl, base_continent_def_mi,
    base_continent_def_sb, base_continent_def_cu, base_continent_def_pe0,
    base_continent_def_pe1, cexPerlin, curveEval, curveEvalGo,
    linearSegment, cubicInterp, f64_clamp, SEA_LEVEL, CONTINENT_FREQUENCY,
    CONTINENT_LACUNARITY]

theorem cex_continent_def (p : P3) :
    eval cexEnv (continent_def 0) p = 1 := by
  norm_num [continent_def, continent_def_se, continent_def_tu2,
    continent_def_tu1, continent_def_tu0, selectEval, sCurve3,
    linearInterp, cex_base_continent_def, SEA_LEVEL]

theorem cex_terrain_type_def (p : P3) :
    eval cexEnv (terrain_type_def 0) p = 1 := by
  norm_num [terrain_type_def, terrain_type_def_te, terrain_type_def_tu, terraceEval, terraceEvalGo, linearInterp, cex_continent_def, SHELF_LEVEL,
    SEA_LEVEL]

theorem cex_mountain_base_def (p : P3) :
    eval cexEnv (mountain_base_def 0) p = 15/8 := by
  norm_num [mountain_base_def, mountain_base_def_tu1, mountain_base_def_tu0,
    mountain_base_def_bl, mountain_base_def_co, mountain_base_def_sb0,
    mountain_base_def_sb1, mountain_base_def_rm0, mountain_base_def_rm1, cexRidged, linearInterp, f64_clamp]

theorem cex_mountainous_high (p : P3) :
    eval cexEnv (mountainous_high 0) p = 3 := by
  norm_num [mountainous_high, mountainous_high_tu, mountainous_high_ma,
    mountainous_high_rm0, mountainous_high_rm1, cexRidged]

theorem cex_mountainous_low (p : P3) :
    eval cexEnv (mountainous_low 0) p = 0 := by
  norm_num [mountainous_low, mountainous_low_mu, mountainous_low_rm0,
    mountainous_low_rm1, cexRidged]

theorem cex_mountainous_terrain (p : P3) :
    eval cexEnv (mountainous_terrain 0) p = 23/10 := by
  norm_num [mountainous_terrain, mountainous_terrain_ex,
    mountainous_terrain_sb2, mountainous_terrain_se, mountainous_terrain_ad,
    mountainous_terrain_sb0, mountainous_terrain_sb1, selectEval,
    sCurve3, linearInterp, cex_mountainous_low, cex_mountainous_high,
    cex_mountain_base_def, MOUNTAIN_GLACIATION, abs_of_nonneg]

theorem cex_hilly_terrain (p : P3) :
    eval cexEnv (hilly_terrain 0) p = -23/32 := by
  norm_num [hilly_terrain, hilly_terrain_tu1, hilly_terrain_tu0,
    hilly_terrain_ex, hilly_terrain_sb2, hilly_terrain_bl, hilly_terrain_co,
    hilly_terrain_sb0, hilly_terrain_sb1, hilly_terrain_bi, hilly_terrain_rm,
    cexRidged, linearInterp, f64_clamp, abs_of_nonneg]

theorem cex_plains_terrain (p : P3) :
    eval cexEnv (plains_terrain 0) p = -1/2 := by
  norm_num [plains_terrain, plains_terrain_sb2, plains_terrain_mu,
    plains_terrain_sb0, plains_terrain_sb1, plains_terrain_bi0,
    plains_terrain_bi1]

theorem cex_badlands_sand (p : P3) :
    eval cexEnv (badlands_sand 0) p = 1/4 := by
  norm_num [badlands_sand, badlands_sand_ad, badlands_sand_sb0,
    badlands_sand_sb1, badlands_sand_rm, badlands_sand_vo, cexRidged]

theorem cex_badlands_cliffs (p : P3) :
    eval cexEnv (badlands_cliffs 0) p = -3/4 := by
  norm_num [badlands_cliffs, badlands_cliffs_tu1, badlands_cliffs_tu0,
    badlands_cliffs_te, badlands_cliffs_cl, badlands_cliffs_cu,
    badlands_cliffs_pe, cexPerlin, curveEval, curveEvalGo,
    linearSegment, cubicInterp, terraceEval, terraceEvalGo, linearInterp,
    f64_clamp, CONTINENT_FREQUENCY]

theorem cex_badlands_terrain (p : P3) :
    eval cexEnv (badlands_terrain 0) p = -11/16 := by
  norm_num [badlands_terrain, badlands_terrain_ma, badlands_terrain_sb, cex_badlands_cliffs, cex_badlands_sand]

theorem cex_river_positions (p : P3) :
    eval cexEnv (river_positions 0) p = 1 := by
  norm_num [river_positions, river_positions_tu, river_positions_mi,
    river_positions_cu0, river_positions_cu1, river_positions_rm0,
    river_positions_rm1, cexRidged, curveEval, curveEvalGo,
    linearSegment, cubicInterp]

theorem cex_scaled_mountainous_terrain (p : P3) :
    eval cexEnv (scaled_mountainous_terrain 0) p = 33/64 := by
  norm_num [scaled_mountainous_terrain, scaled_mountainous_terrain_mu,
    scaled_mountainous_terrain_sb0, scaled_mountainous_terrain_sb1,
    scaled_mountainous_terrain_ex, scaled_mountainous_terrain_pe, cexPerlin, cex_mountainous_terrain]

theorem cex_scaled_hilly_terrain (p : P3) :
    eval cexEnv (scaled_hilly_terrain 0) p = 27/1024 := by
  norm_num [scaled_hilly_terrain, scaled_hilly_terrain_mu,
    scaled_hilly_terrain_sb0, scaled_hilly_terrain_sb1,
    scaled_hilly_terrain_ex, scaled_hilly_terrain_pe, cexPerlin,
    cex_hilly_terrain, abs_of_nonneg]

theorem cex_scaled_plains_terrain (p : P3) :
    eval cexEnv (scaled_plains_terrain 0) p = 3/512 := by
  norm_num [scaled_plains_terrain, scaled_plains_terrain_sb, cex_plains_terrain]

theorem cex_scaled_badlands_terrain (p : P3) :
    eval cexEnv (scaled_badlands_terrain 0) p = 5/256 := by
  norm_num [scaled_badlands_terrain, scaled_badlands_terrain_sb, cex_badlands_terrain]

theorem cex_continental_shelf (p : P3) :
    eval cexEnv (continental_shelf 0) p = -1/8 := by
  norm_num [continental_shelf, continental_shelf_ad, continental_shelf_cl,
    continental_shelf_sb, continental_shelf_te, continental_shelf_rm, cexRidged, terraceEval, terraceEvalGo, linearInterp, f64_clamp,
    cex_continent_def, SHELF_LEVEL, SEA_LEVEL, CONTINENT_FREQUENCY]

theorem cex_base_continent_elev (p : P3) :
    eval cexEnv (base_continent_elev 0) p = 1/4 := by
  norm_num [base_continent_elev, base_continent_elev_se, base_continent_elev_sb,
    selectEval, sCurve3, linearInterp, cex_continent_def,
    cex_continental_shelf, SHELF_LEVEL, CONTINENT_HEIGHT_SCALE, SEA_LEVEL]

theorem cex_continents_with_plains (p : P3) :
    eval cexEnv (continents_with_plains 0) p = 131/512 := by
  norm_num [continents_with_plains, continents_with_plains_ad, cex_base_continent_elev, cex_scaled_plains_terrain]

theorem cex_continents_with_hills (p : P3) :
    eval cexEnv (continents_with_hills 0) p = 283/1024 := by
  norm_num [continents_with_hills, continents_with_hills_se,
    continents_with_hills_ad, selectEval, sCurve3, linearInterp,
    cex_base_continent_elev, cex_scaled_hilly_terrain,
    cex_continents_with_plains, cex_terrain_type_def, HILLS_AMOUNT,
    MOUNTAINS_AMOUNT]

theorem cex_continents_with_mountains (p : P3) :
    eval cexEnv (continents_with_mountains 0) p = 65/64 := by
  norm_num [continents_with_mountains, continents_with_mountains_se,
    continents_with_mountains_ad1, continents_with_mountains_ad0,
    continents_with_mountains_cu, selectEval, sCurve3, linearInterp,
    curveEval, curveEvalGo, linearSegment, cubicInterp,
    cex_base_continent_elev, cex_scaled_mountainous_terrain, cex_continent_def,
    cex_continents_with_hills, cex_terrain_type_def, MOUNTAINS_AMOUNT]

theorem cex_continents_with_badlands (p : P3) :
    eval cexEnv (continents_with_badlands 0) p = 65/64 := by
  norm_num [continents_with_badlands, continents_with_badlands_ma,
    continents_with_badlands_se, continents_with_badlands_ad,
    continents_with_badlands_pe, cexPerlin, selectEval, sCurve3,
    linearInterp, cex_continents_with_mountains, cex_base_continent_elev,
    cex_scaled_badlands_terrain, BADLANDS_AMOUNT]

theorem cex_continents_with_rivers (p : P3) :
    eval cexEnv (continents_with_rivers 0) p = 65/64 := by
  norm_num [continents_with_rivers, continents_with_rivers_se,
    continents_with_rivers_ad, continents_with_rivers_sb, selectEval,
    sCurve3, linearInterp, cex_continents_with_badlands, cex_river_positions,
    RIVER_DEPTH, SEA_LEVEL, CONTINENT_HEIGHT_SCALE]

theorem cex_root_value (p : P3) :
    eval cexEnv (create_generator 0) p = 65/64 := by
  norm_num [create_generator, unscaled_final_planet, cex_continents_with_rivers]

theorem cexEnv_nominal : EnvNominal cexEnv := by
  refine ⟨?_, ?_, ?_, ?_, ?_, ?_, ?_⟩
  · intro pp p
    unfold cexEnv cexPerlin
    dsimp only
    split_ifs <;> norm_num [abs_of_nonneg]
  · intro bp p
    norm_num [cexEnv]
  · intro vp p
    norm_num [cexEnv]
  · intro sd ax f r p
    norm_num [cexEnv]
  · intro e
    rfl
  · intro b e hb he
    exact le_refl b
  · intro b e h0 h1 he
    exact ⟨h0, h1⟩

/-! ## Claim C1 -/

theorem f64_clamp_bounds {lo hi : ℚ} (h : lo ≤ hi) (v : ℚ) :
    lo ≤ f64_clamp v lo hi ∧ f64_clamp v lo hi ≤ hi := by
  unfold f64_clamp
  split_ifs <;> constructor <;> linarith

/-- Claim C1 counterexample: with every Perlin, billow, Voronoi and
perturbation source inside its nominal range [-1, 1], a well-behaved power
function, and three ridged-multifractal sources at amplitude 3 (beyond the
nominal range, as the spec allows for ridged noise), the root field node
evaluates to 65/64 > 1 at the unit-sphere point (1, 0, 0): the final
compositing stage applies no clamp into [-1, 1]. -/
theorem c1_boundedness_counterexample :
    ¬ (∀ (seed : ℤ) (env : Env) (p : P3), EnvNominal env →
        p.x ^ 2 + p.y ^ 2 + p.z ^ 2 = 1 →
        -1 ≤ eval env (create_generator seed) p ∧
          eval env (create_generator seed) p ≤ 1) := by
  intro h
  have hb := (h 0 cexEnv ⟨1, 0, 0⟩ cexEnv_nominal (by norm_num)).2
  rw [cex_root_value] at hb
  norm_num at hb

/-- Claim C1 amended: the final compositing stage applies no clamp — after
the cache wrappers the root of `create_generator` is the
continents-with-rivers select node, not a clamp node — and the output can
leave [-1, 1] when ridged-multifractal sources exceed their nominal range;
the clamp into [-1, 1] exists only inside the base-continent-definition
subgroup, whose output is bounded for every environment and point. -/
theorem c1_no_final_clamp_and_base_clamped (seed : ℤ) (env : Env) (p : P3) :
    isClampNode (stripCache (create_generator seed)) = false ∧
    isSelectNode (stripCache (create_generator seed)) = true ∧
    -1 ≤ eval env (base_continent_def seed) p ∧
    eval env (base_continent_def seed) p ≤ 1 := by
  have hb : eval env (base_continent_def seed) p
      = f64_clamp (eval env (base_continent_def_mi seed) p) (-1) 1 := by
    norm_num [base_continent_def, base_continent_def_cl]
  refine ⟨rfl, rfl, ?_, ?_⟩
  · rw [hb]
    exact (f64_clamp_bounds (by norm_num) _).1
  · rw [hb]
    exact (f64_clamp_bounds (by norm_num) _).2

/-! ## Claim C6: the vertical flip of the renderer buffers -/

theorem writeRow_zero (buf : List ℚ) (start : ℕ) (f : ℕ → ℚ) :
    writeRow buf start 0 f = buf := rfl

theorem writeRow_succ (buf : List ℚ) (start n : ℕ) (f : ℕ → ℚ) :
    writeRow buf start (n + 1) f = (writeRow buf start n f).set (start + n) (f n) := by
  unfold writeRow
  rw [List.range_succ, List.foldl_append]
  rfl

theorem writeRow_length (buf : List ℚ) (start w : ℕ) (f : ℕ → ℚ) :
    (writeRow buf start w f).length = buf.length := by
  induction w with
  | zero => rfl
  | succ n ih => rw [writeRow_succ, List.length_set, ih]

theorem writeRow_get_in (buf : List ℚ) (start w a : ℕ) (f : ℕ → ℚ)
    (ha : a < w) (hlen : start + w ≤ buf.length) :
    (writeRow buf start w f).get? (start + a) = some (f a) := by
  induction w with
  | zero => omega
  | succ n ih =>
    rw [writeRow_succ]
    rcases Nat.lt_or_ge a n with h | h
    · rw [List.get?_set_ne (f n) (writeRow buf start n f) (by omega)]
      exact ih h (by omega)
    · have han : a = n := by omega
      subst han
      rw [List.get?_set_eq_of_lt]
      rw [writeRow_length]
      omega

theorem writeRow_get_out (buf : List ℚ) (start w i : ℕ) (f : ℕ → ℚ)
    (hi : i < start ∨ start + w ≤ i) :
    (writeRow buf start w f).get? i = buf.get? i := by
  induction w with
  | zero => rfl
  | succ n ih =>
    rw [writeRow_succ, List.get?_set_ne (f n) (writeRow buf start n f) (by omega)]
    exact ih (by omega)

theorem block_disjoint {q qp a w : ℕ} (ha : a < w) (hne : q ≠ qp) :
    q * w + a < qp * w ∨ qp * w + w ≤ q * w + a := by
  rcases Nat.lt_or_ge q qp with h | h
  · left
    calc q * w + a < q * w + w := by omega
      _ = (q + 1) * w := by ring
      _ ≤ qp * w := mul_le_mul_right' (by omega) w
  · right
    calc qp * w + w = (qp + 1) * w := by ring
      _ ≤ q * w := mul_le_mul_right' (by omega) w
      _ ≤ q * w + a := by omega

theorem fillRows_length (rows : List ℕ) (buf : List ℚ) (w h : ℕ)
    (sample : ℕ → ℕ → ℚ) :
    (rows.foldl
      (fun bf row => writeRow bf ((h - 1 - row) * w) w (fun i => sample i row))
      buf).length = buf.length := by
  induction rows generalizing buf with
  | nil => rfl
  | cons r rest ih => rw [List.foldl_cons, ih, writeRow_length]

theorem fillRows_untouched (rows : List ℕ) (buf : List ℚ) (w h : ℕ)
    (sample : ℕ → ℕ → ℚ) (i : ℕ)
    (hi : ∀ r ∈ rows, i < (h - 1 - r) * w ∨ (h - 1 - r) * w + w ≤ i) :
    (rows.foldl
      (fun bf row => writeRow bf ((h - 1 - row) * w) w (fun j => sample j row))
      buf).get? i = buf.get? i := by
  induction rows generalizing buf with
  | nil => rfl
  | cons r rest ih =>
    rw [List.foldl_cons, ih _ (fun r2 h2 => hi r2 (List.mem_cons_of_mem _ h2)),
      writeRow_get_out _ _ _ _ _ (hi r (List.mem_cons_self _ _))]

theorem fillRows_get (rows : List ℕ) (buf : List ℚ) (w h : ℕ)
    (sample : ℕ → ℕ → ℚ) (hlen : buf.length = w * h) (hnd : rows.Nodup)
    (hall : ∀ r ∈ rows, r < h) (b : ℕ) (hb : b ∈ rows) (a : ℕ) (ha : a < w) :
    (rows.foldl
      (fun bf row => writeRow bf ((h - 1 - row) * w) w (fun j => sample j row))
      buf).get? ((h - 1 - b) * w + a) = some (sample a b) := by
  induction rows generalizing buf with
  | nil => cases hb
  | cons r rest ih =>
    rw [List.foldl_cons]
    rcases List.mem_cons.mp hb with hbr | hbr
    · subst hbr
      have hbnotin : b ∉ rest := (List.nodup_cons.mp hnd).1
      have hbh : b < h := hall b (List.mem_cons_self _ _)
      rw [fillRows_untouched rest _ w h sample _ ?untouched]
      case untouched =>
        intro r2 hr2
        have hr2h : r2 < h := hall r2 (List.mem_cons_of_mem _ hr2)
        have hne : h - 1 - b ≠ h - 1 - r2 := by
          have : r2 ≠ b := fun e => hbnotin (e ▸ hr2)
          omega
        exact block_disjoint ha hne
      exact writeRow_get_in buf _ w a _ ha (by
        rw [hlen]
        calc (h - 1 - b) * w + w = (h - 1 - b + 1) * w := by ring
          _ ≤ h * w := mul_le_mul_right' (by omega) w
          _ = w * h := Nat.mul_comm h w)
    · exact ih (writeRow buf ((h - 1 - r) * w) w fun j => sample j r)
        (by rw [writeRow_length, hlen]) (List.nodup_cons.mp hnd).2
        (fun r2 h2 => hall r2 (List.mem_cons_of_mem _ h2)) hbr

theorem flipFill_get (w h : ℕ) (sample : ℕ → ℕ → ℚ) (a b : ℕ)
    (ha : a < w) (hb : b < h) :
    (flipFill w h sample).get? ((h - 1 - b) * w + a) = some (sample a b) := by
  unfold flipFill
  exact fillRows_get (List.range h) _ w h sample (by simp) (List.nodup_range h)
    (fun r hr => List.mem_range.mp hr) b (List.mem_range.mpr hb) a ha

/-- Claim C6: in the cube-face renderer the elevations of grid row `b` (pixels
in row-major order inside the row) land in buffer row `size - 1 - b`, and in
the rect renderer the elevations of grid row `y` land in buffer row
`height - 1 - y`: the first written output row corresponds to the maximum grid
coordinate. -/
theorem c6_vertical_flip (sample : ℕ → ℕ → ℚ) (size w h a b x y : ℕ)
    (ha : a < size) (hb : b < size) (hx : x < w) (hy : y < h) :
    (output_cube_face_buffer sample size).get? ((size - 1 - b) * size + a)
        = some (sample a b) ∧
    (output_rect_buffer sample w h).get? ((h - 1 - y) * w + x)
        = some (sample x y) :=
  ⟨flipFill_get size size sample a b ha hb, flipFill_get w h sample x y hx hy⟩

/-- Witness for C6 at size 2 (cube) and 3 by 2 (rect). -/
theorem c6_vertical_flip_witness :
    (output_cube_face_buffer c6SampleFun 2).get? ((2 - 1 - 0) * 2 + 1)
        = some (c6SampleFun 1 0) ∧
    (output_rect_buffer c6SampleFun 3 2).get? ((2 - 1 - 1) * 3 + 2)
        = some (c6SampleFun 2 1) :=
  c6_vertical_flip c6SampleFun 2 3 2 1 0 2 1 (by norm_num) (by norm_num)
    (by norm_num) (by norm_num)

/-! ## Claim C7 -/

/-- Claim C7: for every face and every size at least 2, the four corner grid
indices map under `coord_to_pos` (with `max_coord = size - 1`) to points all
of whose coordinates are exactly -1 or +1, and the face's held axis is fixed
at the sign of the per-face table. -/
theorem c7_cube_face_corners (size : ℕ) (hsize : 2 ≤ size) (plane : Plane)
    (a b : ℕ) (ha : a = 0 ∨ a = size - 1) (hb : b = 0 ∨ b = size - 1) :
    ((coord_to_pos plane a b (size - 1)).x = -1 ∨
      (coord_to_pos plane a b (size - 1)).x = 1) ∧
    ((coord_to_pos plane a b (size - 1)).y = -1 ∨
      (coord_to_pos plane a b (size - 1)).y = 1) ∧
    ((coord_to_pos plane a b (size - 1)).z = -1 ∨
      (coord_to_pos plane a b (size - 1)).z = 1) ∧
    held_axis_value plane (coord_to_pos plane a b (size - 1))
      = held_axis_sign plane := by
  have hmQ : ((size - 1 : ℕ) : ℚ) ≠ 0 := Nat.cast_ne_zero.mpr (by omega)
  have hfull : -1 + ((size - 1 : ℕ) : ℚ) * 2 / ((size - 1 : ℕ) : ℚ) = 1 := by
    rw [mul_comm, mul_div_assoc, div_self hmQ]
    norm_num
  rcases ha with rfl | rfl <;> rcases hb with rfl | rfl <;> cases plane <;>
    simp [coord_to_pos, held_axis_value, held_axis_sign, Nat.sub_self,
      Nat.sub_zero, hfull]

/-- Witness for C7: the XP face at size 2, corner (0, 1). -/
theorem c7_cube_face_corners_witness :
    ((coord_to_pos .XP 0 1 1).x = -1 ∨ (coord_to_pos .XP 0 1 1).x = 1) ∧
    ((coord_to_pos .XP 0 1 1).y = -1 ∨ (coord_to_pos .XP 0 1 1).y = 1) ∧
    ((coord_to_pos .XP 0 1 1).z = -1 ∨ (coord_to_pos .XP 0 1 1).z = 1) ∧
    held_axis_value .XP (coord_to_pos .XP 0 1 1) = held_axis_sign .XP :=
  c7_cube_face_corners 2 (by norm_num) .XP 0 1 (Or.inl rfl) (Or.inr rfl)

/-! ## Claim C8 -/

/-- Claim C8: in rect mode with `height = width / 2`, pixel (0, 0) maps to
exactly latitude -90 and longitude -180, and pixel (width-1, height-1) maps to
a latitude within 180/height of +90 and a longitude within 360/width of
+180. -/
theorem c8_rect_corners (width : ℕ) (h2 : 2 ≤ width) :
    cur_lat 0 (rect_height width) = -90 ∧
    cur_lon 0 width = -180 ∧
    |90 - cur_lat (rect_height width - 1) (rect_height width)|
        ≤ 180 / (rect_height width : ℚ) ∧
    |180 - cur_lon (width - 1) width| ≤ 360 / (width : ℚ) := by
  have hh1 : 1 ≤ rect_height width := by
    unfold rect_height
    omega
  have hhQ : ((rect_height width : ℕ) : ℚ) ≠ 0 := Nat.cast_ne_zero.mpr (by omega)
  have hwQ : ((width : ℕ) : ℚ) ≠ 0 := Nat.cast_ne_zero.mpr (by omega)
  refine ⟨by simp [cur_lat], by simp [cur_lon], ?_, ?_⟩
  · have hc : ((rect_height width - 1 : ℕ) : ℚ) = (rect_height width : ℚ) - 1 := by
      push_cast [Nat.cast_sub hh1]
      ring
    have key : cur_lat (rect_height width - 1) (rect_height width)
        = 90 - 180 / (rect_height width : ℚ) := by
      unfold cur_lat
      rw [hc]
      field_simp
      ring
    rw [key, show (90 : ℚ) - (90 - 180 / (rect_height width : ℚ))
        = 180 / (rect_height width : ℚ) by ring,
      abs_of_nonneg (by positivity)]
  · have hc : ((width - 1 : ℕ) : ℚ) = (width : ℚ) - 1 := by
      push_cast [Nat.cast_sub (by omega : 1 ≤ width)]
      ring
    have key : cur_lon (width - 1) width = 180 - 360 / (width : ℚ) := by
      unfold cur_lon
      rw [hc]
      field_simp
      ring
    rw [key, show (180 : ℚ) - (180 - 360 / (width : ℚ))
        = 360 / (width : ℚ) by ring,
      abs_of_nonneg (by positivity)]

/-- Witness for C8 at width 4 (height 2). -/
theorem c8_rect_corners_witness :
    cur_lat 0 (rect_height 4) = -90 ∧
    cur_lon 0 4 = -180 ∧
    |90 - cur_lat (rect_height 4 - 1) (rect_height 4)|
        ≤ 180 / (rect_height 4 : ℚ) ∧
    |180 - cur_lon (4 - 1) 4| ≤ 360 / ((4 : ℕ) : ℚ) :=
  c8_rect_corners 4 (by norm_num)

/-! ## Claim C9 -/

/-- Claim C9: if the seed argument or the width argument fails integer
parsing, main prints an error and exits with status 1 before any graph
construction or rendering begins. -/
theorem c9_bad_argument_exits (s w : String)
    (h : parse_i32 s = none ∨ parse_usize w = none) :
    ∃ msg, main_args s w = .exit 1 msg := by
  rcases hs : parse_i32 s with _ | z
  · exact ⟨"Seed must be an integer", by unfold main_args; rw [hs]⟩
  · rcases h with h | h
    · rw [hs] at h
      cases h
    · exact ⟨"Width must be an integer", by unfold main_args; rw [hs, h]⟩

/-- Witness for C9: a non-integer seed argument. -/
theorem c9_bad_argument_exits_witness :
    ∃ msg, main_args "abc" "64" = .exit 1 msg :=
  c9_bad_argument_exits "abc" "64" (Or.inl (by decide))

/-! ## Claim C10 -/

/-- Claim C10: a width argument denoting a negative integer fails the unsigned
parse, so (for any seed argument that parses) the program prints the width
error and exits with status 1: width is in fact required to be a non-negative
integer. -/
theorem c10_negative_width_exits (s w : String) (z : ℤ)
    (hs : parse_i32 s = some z) (hw : NegIntString w) :
    parse_usize w = none ∧
    main_args s w = .exit 1 "Width must be an integer" := by
  obtain ⟨rest, hcs, hne, hdig, hnz⟩ := hw
  have hmp : ¬ (('-' : Char) = '+') := by decide
  have hmd : ('-' : Char).isDigit = false := by decide
  have hpu : parse_usize w = none := by
    unfold parse_usize
    rw [hcs]
    simp [parseDigits, parseDigitsAux, hmp, hmd]
  refine ⟨hpu, ?_⟩
  unfold main_args
  rw [hs, hpu]

/-- Witness for C10: seed "0" with width "-1". -/
theorem c10_negative_width_exits_witness :
    parse_usize "-1" = none ∧
    main_args "0" "-1" = .exit 1 "Width must be an integer" :=
  c10_negative_width_exits "0" "-1" 0 (by decide)
    ⟨['1'], by decide, by decide, by decide, '1', by decide, by decide⟩

end ComplexPlanet
